import Mathlib

/-! Verification development for the portfolio engine of the repository
oyduoe/Projet.  The definitions below are a shallow embedding of `data.py`
(currency normalization, daily return construction) and of `streamlit_app.py`
(portfolio optimization, analysis, performance projection).  Floating point
numbers are modelled by rationals; missing values (pandas NaN) by `Option`;
pandas frames by an index list together with column or row lists. -/

abbrev Vec := List ℚ

/-- A pandas timestamp: a calendar date plus a time-of-day component.
`pd.to_datetime(...).date` keeps `date` and drops `time`.  `date` counts days
from a fixed Monday, so `date % 7` is the weekday ordering (Monday = 0). -/
structure DTime where
  date : Int
  time : Nat
deriving DecidableEq, BEq, Repr

/-- Weekday of a date, Monday = 0 .. Sunday = 6 (pandas `dt.dayofweek`). -/
def dayofweek (d : DTime) : Int :=
  d.date % 7

/-- `pd.to_datetime(ix).date`: strip the time-of-day component of a timestamp. -/
def normDT (d : DTime) : DTime :=
  ⟨d.date, 0⟩

/-- Date-only normalization of a whole index, as done by lines 70 and 71 of
`data.py`. -/
def normIndex (l : List DTime) : List DTime :=
  l.map normDT

/-- A pandas DataFrame in column-major form: a date index and named columns of
optional values (`none` = NaN).  Used for the price and FX tables of `data.py`. -/
structure DFrame where
  index : List DTime
  cols : List (String × List (Option ℚ))
deriving DecidableEq, BEq, Repr

/-- `currency_dict` of `data.py`: ticker to native currency code. -/
def currency_dict : List (String × String) :=
  [("EQT", "USD"), ("SAGA-B.ST", "SEK"), ("ACGBY", "USD"), ("ATEYY", "USD"),
   ("2395.TW", "TWD"), ("ADM.L", "GBP"), ("AFL", "USD"), ("ANET", "USD"),
   ("ARES", "USD"), ("ACGL", "USD"), ("300999.SZ", "CNY"), ("AU", "USD"),
   ("AIR.PA", "EUR"), ("2618.TW", "TWD"), ("AON", "USD"), ("A17U.SI", "SGD"),
   ("TEMN.SW", "CHF"), ("HOLN.SW", "CHF"), ("2802.T", "JPY"), ("MB.MI", "EUR"),
   ("BAMI.MI", "EUR"), ("PST.MI", "EUR"), ("ALE.WA", "PLN"), ("AVB", "USD"),
   ("AVY", "USD"), ("2588.HK", "HKD"), ("INDIGO.NS", "INR"), ("9202.T", "JPY"),
   ("KMI", "USD")]

/-- `currency_dict[stock]`: `some` currency, or `none` when the Python dict
access would raise a KeyError. -/
def lookupCurrency (s : String) : Option String :=
  (currency_dict.find? (fun p => decide (p.1 = s))).map (fun p => p.2)

/-- Value of an index-aligned series at a date: first row of the series whose
index entry equals `d`, `none` when the date is absent (pandas alignment NaN). -/
def getAt (idx : List DTime) (col : List (Option ℚ)) (d : DTime) : Option ℚ :=
  ((idx.zip col).find? (fun p => decide (p.1 = d))).bind (fun p => p.2)

/-- First column of a frame named `name` (`frame[name]`), `[]` when absent. -/
def getCol (cols : List (String × List (Option ℚ))) (name : String) :
    List (Option ℚ) :=
  match cols.find? (fun p => decide (p.1 = name)) with
  | some p => p.2
  | none => []

/-- `df_converted[stock] * forex_filtre[change]` (or `/` when `estDivision`):
index-aligned elementwise operation; a date missing from the FX rows, or a NaN
on either side, yields NaN. -/
def convertCol (idx : List DTime) (col : List (Option ℚ)) (fidx : List DTime)
    (fcol : List (Option ℚ)) (estDivision : Bool) : List (Option ℚ) :=
  (idx.zip col).map (fun p =>
    match p.2, getAt fidx fcol p.1 with
    | some x, some r => some (if estDivision then x / r else x * r)
    | _, _ => none)

/-- The inner `for change in forex_filtre.columns` loop of `devisechange`
(lines 79 to 87 of `data.py`): scan the FX column names in their table order and
return the first one equal to the direct pair name (`false` = multiply) or to
the inverse pair name (`true` = divide). -/
def findPair (native target : String) : List String → Option (String × Bool)
  | [] => none
  | c :: rest =>
    if c = native ++ target then some (c, false)
    else if c = target ++ native then some (c, true)
    else findPair native target rest

/-- Row restriction `df.loc[mask]` of a column-major frame. -/
def selectRows (f : DFrame) (p : DTime → Bool) : DFrame :=
  ⟨f.index.filter p,
   f.cols.map (fun sc =>
     (sc.1, ((f.index.zip sc.2).filter (fun q => p q.1)).map (fun q => q.2)))⟩

/-- Body of the `for stock in df_converted.columns` loop of `devisechange` for
one column whose native currency `cur` is already known: pass through when the
currency is the target; otherwise convert with the first matching FX pair
column, or leave unconverted and record the `(cur, target)` warning printed at
line 89 of `data.py`. -/
def convCol1 (fidx : List DTime) (fcols : List (String × List (Option ℚ)))
    (target : String) (idx : List DTime) (cur : String)
    (col : List (Option ℚ)) : List (Option ℚ) × List (String × String) :=
  if cur = target then (col, [])
  else
    match findPair cur target (fcols.map (fun p => p.1)) with
    | some (c, estDiv) => (convertCol idx col fidx (getCol fcols c) estDiv, [])
    | none => (col, [(cur, target)])

/-- The column loop of `devisechange`, processed left to right; an unknown
ticker stops the run with the KeyError ticker (`currency_dict[stock]`). -/
def processCols (fidx : List DTime) (fcols : List (String × List (Option ℚ)))
    (target : String) (idx : List DTime) :
    List (String × List (Option ℚ)) →
      Except String (List (String × List (Option ℚ)) × List (String × String))
  | [] => Except.ok ([], [])
  | sc :: rest =>
    match lookupCurrency sc.1 with
    | none => Except.error sc.1
    | some cur =>
      let r := convCol1 fidx fcols target idx cur sc.2
      match processCols fidx fcols target idx rest with
      | Except.error e => Except.error e
      | Except.ok (rs, ws) => Except.ok ((sc.1, r.1) :: rs, r.2 ++ ws)

/-- Line 72 of `data.py`:
`forex_filtre = df_forex.loc[df_forex.index.isin(df.index)]`, computed after
both indices have been normalized to date-only values. -/
def forex_filtre (df df_forex : DFrame) : DFrame :=
  selectRows ⟨normIndex df_forex.index, df_forex.cols⟩
    (fun d => (normIndex df.index).any (fun x => decide (x = d)))

/-- `devisechange(df, df_forex, target_curr)` of `data.py` (lines 69 to 90).
Lines 70 and 71 reassign the `.index` attribute of both argument objects in
place; this in-place effect is modelled by the first two components of the
result, which are the states of `df` and `df_forex` after the call.  The third
component is the returned converted frame together with the list of
`(currency, target)` pairs for which the warning of line 89 is printed, or the
KeyError ticker when a column has no entry in `currency_dict`. -/
def devisechange (df df_forex : DFrame) (target_curr : String) :
    DFrame × DFrame × Except String (DFrame × List (String × String)) :=
  let dfm : DFrame := ⟨normIndex df.index, df.cols⟩
  let dffm : DFrame := ⟨normIndex df_forex.index, df_forex.cols⟩
  let ff := forex_filtre df df_forex
  let res :=
    match processCols ff.index ff.cols target_curr dfm.index dfm.cols with
    | Except.error e => Except.error e
    | Except.ok (cs, ws) => Except.ok ((⟨dfm.index, cs⟩ : DFrame), ws)
  (dfm, dffm, res)

/-- A pandas DataFrame in row-major form, used for the return pipeline of
`data.py`: a date index and one list of optional cells per date. -/
structure RFrame where
  index : List DTime
  rows : List (List (Option ℚ))
deriving DecidableEq, BEq, Repr

/-- One cell of `pct_change` followed by `replace([np.inf, -np.inf], 0)`:
simple return `(cur - prev) / prev`; a zero previous price gives an infinite
value coerced to `0` when the numerator is nonzero and NaN (`none`) when both
prices are zero; a missing price on either side gives NaN. -/
def pctCell (prev cur : Option ℚ) : Option ℚ :=
  match prev, cur with
  | some q, some r =>
    if q = 0 then (if r = 0 then none else some 0) else some ((r - q) / q)
  | _, _ => none

/-- `pct_change` row against the previous row, elementwise. -/
def pctRow (prev cur : List (Option ℚ)) : List (Option ℚ) :=
  (prev.zip cur).map (fun pc => pctCell pc.1 pc.2)

/-- `pct_change().replace([np.inf, -np.inf], 0)` over all rows: the first row
becomes all-NaN, every later row is diffed against its predecessor. -/
def pctChange (rows : List (List (Option ℚ))) : List (List (Option ℚ)) :=
  match rows with
  | [] => []
  | r0 :: _ =>
    (r0.map (fun _ => (none : Option ℚ))) ::
      ((rows.zip (rows.drop 1)).map (fun pc => pctRow pc.1 pc.2))

/-- Row filtering of a row-major frame by a predicate on the date and the row. -/
def filterFrame (f : RFrame) (p : DTime → List (Option ℚ) → Bool) : RFrame :=
  let kept := (f.index.zip f.rows).filter (fun ir => p ir.1 ir.2)
  ⟨kept.map (fun ir => ir.1), kept.map (fun ir => ir.2)⟩

/-- The return series builder of `data.py` (lines 100 to 102): day-over-day
percentage change with infinities replaced by 0, restriction to weekday rows
(`dayofweek < 5`), then `dropna(axis=0)`, which with the pandas default
`how=any` keeps exactly the rows in which every cell is present. -/
def returns_data (prices : RFrame) : RFrame :=
  let r : RFrame := ⟨prices.index, pctChange prices.rows⟩
  let w := filterFrame r (fun d _ => decide (dayofweek d < 5))
  filterFrame w (fun _ row => row.all (fun c => c.isSome))

/-! Embedding of the computational core of `streamlit_app.py`.  The cleaned
return table `Data.csv` is rectangular with no missing cell, so its rows are
plain rational vectors. -/

/-- Constants of lines 8 to 13 of `streamlit_app.py`. -/
def RISK_AVERSION : ℚ := 9 / 10

/-- Weight of the return term in the volatility objective. -/
def RETURN_TARGET_WEIGHT : ℚ := 2 / 10

/-- Risk-free rate of the Sharpe computation. -/
def TAUX_SANS_RISQUE : ℚ := 4 / 100

/-- Minimal weight for an asset to appear in the allocation report. -/
def SEUIL_PONDERATION : ℚ := 1 / 10000

/-- Return coefficient of the ESG objective. -/
def ALPHA : ℚ := 2 / 10

/-- Score coefficient of the ESG objective. -/
def GAMMA : ℚ := 9 / 10

/-- `ESG_dict` of `streamlit_app.py`: ticker to subjective ESG score. -/
def ESG_dict : List (String × ℚ) :=
  [("EQT", 2), ("SAGA-B.ST", 2), ("ACGBY", 2), ("ATEYY", 2), ("2395.TW", 2),
   ("ADM.L", 3), ("AFL", 2), ("ANET", 2), ("ARES", 2), ("ACGL", 2),
   ("300999.SZ", 4), ("AU", 3), ("AIR.PA", 2), ("2618.TW", 2), ("AON", 2),
   ("A17U.SI", 2), ("TEMN.SW", 2), ("HOLN.SW", 2), ("2802.T", 2), ("MB.MI", 4),
   ("BAMI.MI", 2), ("PST.MI", 2), ("ALE.WA", 4), ("AVB", 2), ("AVY", 3),
   ("2588.HK", 2), ("INDIGO.NS", 2), ("9202.T", 2), ("KMI", 3)]

/-- The returns table consumed by the optimizer and analyzer: a date index,
ticker column names, and one complete row of daily returns per date. -/
structure RetTable where
  index : List DTime
  cols : List String
  rows : List Vec
deriving DecidableEq, BEq, Repr

/-- Dot product of two aligned vectors (`np.dot`, `@`, `Series.dot`). -/
def dot (v w : Vec) : ℚ :=
  ((v.zip w).map (fun p => p.1 * p.2)).sum

/-- Column `j` of the returns table. -/
def colonne (df : RetTable) (j : ℕ) : List ℚ :=
  df.rows.map (fun r => r.getD j 0)

/-- Arithmetic mean of a list (pandas `mean`); `0` for the empty list. -/
def meanQ (l : List ℚ) : ℚ :=
  l.sum / (l.length : ℚ)

/-- Sample covariance of two aligned lists (pandas `cov`, `ddof = 1`). -/
def covQ (xs ys : List ℚ) : ℚ :=
  (((xs.zip ys).map (fun p => (p.1 - meanQ xs) * (p.2 - meanQ ys))).sum) /
    ((xs.length : ℚ) - 1)

/-- `df.cov() * 252` as a square matrix over the column positions. -/
def matriceCov (df : RetTable) : List Vec :=
  (List.range df.cols.length).map (fun j =>
    (List.range df.cols.length).map (fun k =>
      covQ (colonne df j) (colonne df k) * 252))

/-- `df.mean() * 252`, the annualized per-asset mean returns. -/
def rendementsAnnualises (df : RetTable) : Vec :=
  (List.range df.cols.length).map (fun j => meanQ (colonne df j) * 252)

/-- Quadratic form `w.T @ C @ w`. -/
def quadForm (c : List Vec) (w : Vec) : ℚ :=
  dot w (c.map (fun row => dot row w))

/-- The equality constraint `lambda w: np.sum(w) - 1` of line 52. -/
def contrainte_somme (w : Vec) : ℚ :=
  w.sum - 1

/-- The per-asset bound list `[(0, max_poids_par_actif)] * nb_actifs`. -/
def bornes_de (n : ℕ) (cap : ℚ) : List (ℚ × ℚ) :=
  List.replicate n (0, cap)

/-- `np.ones(n) / n`, the equal weight vector and initial solver guess. -/
def poids_egaux (n : ℕ) : Vec :=
  List.replicate n ((1 : ℚ) / (n : ℚ))

/-- `np.array([notes[col] for col in df.columns])`: score vector aligned to the
columns; the first ticker missing from the dict raises its KeyError. -/
def notes_vecteur (d : List (String × ℚ)) : List String → Except String Vec
  | [] => Except.ok []
  | c :: cs =>
    match d.find? (fun p => decide (p.1 = c)) with
    | some p =>
      match notes_vecteur d cs with
      | Except.ok v => Except.ok (p.2 :: v)
      | Except.error e => Except.error e
    | none => Except.error c

/-- Errors a call of `optimiser_portefeuille` can raise: the unbound local
`objectif` reached by `minimize` when no branch defined it, and the KeyError of
a ticker missing from the ESG dict. -/
inductive PyError where
  | nameErrorObjectif : PyError
  | keyError : String → PyError
deriving DecidableEq, Repr

/-- A constrained solver in the role of `scipy.optimize.minimize(objectif, x0,
method=SLSQP, bounds, constraints)`, abstracted as a function of the objective,
the initial guess, the bound list and the equality constraint list, returning
the iterate `resultat.x`.  Modelled from the spec: `scipy` is outside the
repository; the spec describes it as a local constrained nonlinear solver whose
result satisfies the bounds and the equality constraints it is given. -/
abbrev Solver :=
  (Vec → ℚ) → Vec → List (ℚ × ℚ) → List (Vec → ℚ) → Vec

/-- `optimiser_portefeuille(df, mode, notes, max_poids_par_actif)` of
`streamlit_app.py`, lines 47 to 77.  `solver` stands for
`scipy.optimize.minimize` and `sqrtQ` for `np.sqrt`; both are injected so the
embedding stays executable.  The Python default of `max_poids_par_actif` is
`0.25` (see `MAX_POIDS_PAR_ACTIF_DEFAUT`); the `egale_pondere` branch returns
the initial guess without calling the solver; a mode matching no branch leaves
the local `objectif` undefined, so the `minimize` call raises
(`nameErrorObjectif`). -/
def optimiser_portefeuille (solver : Solver) (sqrtQ : ℚ → ℚ) (df : RetTable)
    (mode : String) (notes : Option (List (String × ℚ)))
    (max_poids_par_actif : ℚ) : Except PyError Vec :=
  let nb_actifs := df.cols.length
  let matrice_cov := matriceCov df
  let rendements_annualises := rendementsAnnualises df
  let contraintes : List (Vec → ℚ) := [contrainte_somme]
  let bornes := bornes_de nb_actifs max_poids_par_actif
  let poids_initiaux := poids_egaux nb_actifs
  if mode = "max_rendement" then
    Except.ok (solver
      (fun w => -(dot w rendements_annualises -
        RISK_AVERSION * sqrtQ (quadForm matrice_cov w)))
      poids_initiaux bornes contraintes)
  else if mode = "min_volatilite" then
    Except.ok (solver
      (fun w => sqrtQ (quadForm matrice_cov w) -
        RETURN_TARGET_WEIGHT * dot w rendements_annualises)
      poids_initiaux bornes contraintes)
  else if mode = "esg" ∧ notes.isSome then
    match notes_vecteur (notes.getD []) df.cols with
    | Except.error c => Except.error (PyError.keyError c)
    | Except.ok nv =>
      Except.ok (solver
        (fun w => -(ALPHA * dot w rendements_annualises -
          RISK_AVERSION * sqrtQ (quadForm matrice_cov w) +
          GAMMA * dot w nv))
        poids_initiaux bornes contraintes)
  else if mode = "egale_pondere" then
    Except.ok poids_initiaux
  else
    Except.error PyError.nameErrorObjectif

/-- Default value `0.25` of the `max_poids_par_actif` parameter (line 47). -/
def MAX_POIDS_PAR_ACTIF_DEFAUT : ℚ := 1 / 4

/-- Call site of line 463: `optimiser_portefeuille(df, 'max_rendement')`; the
`notes` and cap arguments take their defaults. -/
def appel_max_rendement (solver : Solver) (sqrtQ : ℚ → ℚ) (df : RetTable) :
    Except PyError Vec :=
  optimiser_portefeuille solver sqrtQ df "max_rendement" none
    MAX_POIDS_PAR_ACTIF_DEFAUT

/-- Call site of line 471: `optimiser_portefeuille(df, 'min_volatilite')`. -/
def appel_min_volatilite (solver : Solver) (sqrtQ : ℚ → ℚ) (df : RetTable) :
    Except PyError Vec :=
  optimiser_portefeuille solver sqrtQ df "min_volatilite" none
    MAX_POIDS_PAR_ACTIF_DEFAUT

/-- Call site of line 479: `optimiser_portefeuille(df, 'esg', ESG_dict)`. -/
def appel_esg (solver : Solver) (sqrtQ : ℚ → ℚ) (df : RetTable) :
    Except PyError Vec :=
  optimiser_portefeuille solver sqrtQ df "esg" (some ESG_dict)
    MAX_POIDS_PAR_ACTIF_DEFAUT

/-- Call site of line 495:
`optimiser_portefeuille(df_selection, 'egale_pondere')`. -/
def appel_egale_pondere (solver : Solver) (sqrtQ : ℚ → ℚ)
    (df_selection : RetTable) : Except PyError Vec :=
  optimiser_portefeuille solver sqrtQ df_selection "egale_pondere" none
    MAX_POIDS_PAR_ACTIF_DEFAUT

/-- `rendements.dot(poids)`: the portfolio daily return series. -/
def rendements_port (rendements : RetTable) (poids : Vec) : List ℚ :=
  rendements.rows.map (fun r => dot r poids)

/-- `rendements_port.std() * np.sqrt(252)` with the pandas sample standard
deviation (`ddof = 1`): the annualized portfolio volatility. -/
def volatilite (sqrtQ : ℚ → ℚ) (rendements : RetTable) (poids : Vec) : ℚ :=
  let rp := rendements_port rendements poids
  sqrtQ (((rp.map (fun x => (x - meanQ rp) ^ 2)).sum) / ((rp.length : ℚ) - 1)) *
    sqrtQ 252

/-- `rendements_port.mean() * 252`: the annualized portfolio return. -/
def rendement_annuel (rendements : RetTable) (poids : Vec) : ℚ :=
  meanQ (rendements_port rendements poids) * 252

/-- Line 83 of `streamlit_app.py`: the Sharpe ratio, `0` when the annualized
volatility is exactly `0`. -/
def sharpe (sqrtQ : ℚ → ℚ) (rendements : RetTable) (poids : Vec) : ℚ :=
  if volatilite sqrtQ rendements poids ≠ 0 then
    (rendement_annuel rendements poids - TAUX_SANS_RISQUE) /
      volatilite sqrtQ rendements poids
  else 0

/-- Round half to even at `10 ^ -2`, the numpy rounding used by `.round(2)`. -/
def round2 (q : ℚ) : ℚ :=
  let f : Int := Int.floor (q * 100)
  let frac : ℚ := q * 100 - (f : ℚ)
  let r : Int :=
    if frac < 1 / 2 then f
    else if 1 / 2 < frac then f + 1
    else if 2 ∣ f then f else f + 1
  (r : ℚ) / 100

/-- The metric record displayed by `analyser_portefeuille`: annual return and
volatility in percent and the Sharpe value, each rounded to two decimals. -/
structure Metriques where
  rendementAnnuelPct : ℚ
  volatilitePct : ℚ
  ratioSharpe : ℚ
deriving DecidableEq, Repr

/-- `analyser_portefeuille(rendements, poids)` of `streamlit_app.py`, lines 79
to 96: the rounded metric record and the allocation report listing the
`(ticker, weight)` pairs whose weight exceeds `SEUIL_PONDERATION`, in column
order. -/
def analyser_portefeuille (sqrtQ : ℚ → ℚ) (rendements : RetTable)
    (poids : Vec) : Metriques × List (String × ℚ) :=
  (⟨round2 (rendement_annuel rendements poids * 100),
    round2 (volatilite sqrtQ rendements poids * 100),
    round2 (sharpe sqrtQ rendements poids)⟩,
   (rendements.cols.zip poids).filter (fun p => SEUIL_PONDERATION < p.2))

/-- Running products of a list with starting accumulator `acc`. -/
def cumprodAux (acc : ℚ) : List ℚ → List ℚ
  | [] => []
  | x :: xs => (acc * x) :: cumprodAux (acc * x) xs

/-- Pandas `cumprod`: running products starting from the basis `1`. -/
def cumprod (l : List ℚ) : List ℚ :=
  cumprodAux 1 l

/-- `plot_perf(rendements, poids, titre)` of `streamlit_app.py`, lines 98 to
102: the plotted series `(1 + rendements.dot(poids)).cumprod()` paired with its
date index (the matplotlib figure wrapper is presentation only). -/
def plot_perf (rendements : RetTable) (poids : Vec) (_titre : String) :
    List (DTime × ℚ) :=
  rendements.index.zip (cumprod (rendements.rows.map (fun r => 1 + dot r poids)))

/-- A weight vector respects a bound list when it has the same length and each
component lies between the corresponding lower and upper bound. -/
def dans_bornes (w : Vec) (bornes : List (ℚ × ℚ)) : Prop :=
  List.Forall₂ (fun x b => b.1 ≤ x ∧ x ≤ b.2) w bornes

/-! Concrete fixtures used to instantiate the claim theorems. -/

/-- A placeholder square root for concrete instantiations (its values are never
relevant to the statements that use it). -/
def sqId : ℚ → ℚ := fun q => q

/-- A solver that returns the upper bound of every asset: it exposes which
bound list the optimizer passes to `minimize`. -/
def solverEcho : Solver := fun _ _ bornes _ => bornes.map (fun b => b.2)

/-- A solver that always returns the feasible point `[1/2, 1/2]`. -/
def solverDemi : Solver := fun _ _ _ _ => [1 / 2, 1 / 2]

/-- A two-asset, one-day returns table. -/
def tableDeux : RetTable := ⟨[⟨0, 0⟩], ["EQT", "AFL"], [[1 / 100, 2 / 100]]⟩

/-- A single-asset table with constant daily returns: its portfolio return
series has zero variance. -/
def tableConstante : RetTable :=
  ⟨[⟨0, 0⟩, ⟨1, 0⟩, ⟨2, 0⟩], ["EQT"], [[1 / 100], [1 / 100], [1 / 100]]⟩

/-- A single-asset, two-day returns table for the performance projection. -/
def tablePerf : RetTable := ⟨[⟨0, 0⟩, ⟨1, 0⟩], ["EQT"], [[1 / 10], [1 / 5]]⟩

/-- Converted prices over Monday to Wednesday for two assets; the second asset
has a missing price on the third day, so its Wednesday return is NaN while the
first asset still has a valid Wednesday return. -/
def prixExemple : RFrame :=
  ⟨[⟨0, 0⟩, ⟨1, 0⟩, ⟨2, 0⟩],
   [[some 1, some 1], [some 2, some 2], [some 4, none]]⟩

/-- A one-column price table for the USD asset `EQT`, date-only index. -/
def dfEQT : DFrame := ⟨[⟨0, 0⟩], [("EQT", [some 10])]⟩

/-- An FX table carrying both pair columns for USD and EUR, the inverse column
`EURUSD` (rate 4) listed before the direct column `USDEUR` (rate 1/2). -/
def dffPaires : DFrame :=
  ⟨[⟨0, 0⟩], [("EURUSD", [some 4]), ("USDEUR", [some (1 / 2)])]⟩

/-- An FX table with no pair column for USD and EUR. -/
def dffSansPaire : DFrame := ⟨[⟨0, 0⟩], [("GBPEUR", [some 2])]⟩

/-- A price table whose index entry carries a nonzero time-of-day component. -/
def dfHeure : DFrame := ⟨[⟨0, 5⟩], [("AIR.PA", [some 10])]⟩

/-- An empty FX table. -/
def dffVide : DFrame := ⟨[], []⟩

/-! Helper lemmas. -/

lemma normIndex_id (l : List DTime) (h : ∀ d ∈ l, d.time = 0) :
    normIndex l = l := by
  induction l with
  | nil => rfl
  | cons d t ih =>
    have hd : d.time = 0 := h d (List.mem_cons_self d t)
    have ht := ih (fun x hx => h x (List.mem_cons_of_mem d hx))
    cases d with
    | mk da ti =>
      simp only [normIndex, normDT, List.map_cons] at *
      simp_all

lemma mem_of_forall₂_replicate {P : ℚ → ℚ × ℚ → Prop} :
    ∀ {w : Vec} {n : ℕ} {b : ℚ × ℚ},
      List.Forall₂ P w (List.replicate n b) → ∀ x ∈ w, P x b := by
  intro w
  induction w with
  | nil => intro n b _ x hx; cases hx
  | cons a t ih =>
    intro n b h x hx
    cases n with
    | zero =>
      rw [List.replicate_zero] at h
      cases h
    | succ m =>
      rw [List.replicate_succ] at h
      cases h with
      | cons hab htail =>
        rcases List.mem_cons.mp hx with rfl | hmem
        · exact hab
        · exact ih htail x hmem

lemma notes_vecteur_isOk (d : List (String × ℚ)) :
    ∀ cols : List String,
      (∀ c ∈ cols, ((d.find? (fun p => decide (p.1 = c))).isSome)) →
      ∃ v, notes_vecteur d cols = Except.ok v := by
  intro cols
  induction cols with
  | nil => exact fun _ => ⟨[], rfl⟩
  | cons c cs ih =>
    intro h
    obtain ⟨p, hp⟩ :=
      Option.isSome_iff_exists.mp (h c (List.mem_cons_self c cs))
    obtain ⟨v, hv⟩ := ih (fun x hx => h x (List.mem_cons_of_mem c hx))
    refine ⟨p.2 :: v, ?_⟩
    simp only [notes_vecteur]
    rw [hp, hv]

lemma findPair_eq_none (native target : String) :
    ∀ l : List String,
      (∀ c ∈ l, c ≠ native ++ target ∧ c ≠ target ++ native) →
      findPair native target l = none := by
  intro l
  induction l with
  | nil => exact fun _ => rfl
  | cons c cs ih =>
    intro h
    have hc := h c (List.mem_cons_self c cs)
    simp only [findPair, if_neg hc.1, if_neg hc.2]
    exact ih (fun x hx => h x (List.mem_cons_of_mem c hx))

lemma findPair_prefix_skip (native target : String) (pre rest : List String)
    (hpre : ∀ c ∈ pre, c ≠ native ++ target ∧ c ≠ target ++ native) :
    findPair native target (pre ++ rest) = findPair native target rest := by
  induction pre with
  | nil => rfl
  | cons c cs ih =>
    have hc := hpre c (List.mem_cons_self c cs)
    simp only [List.cons_append, findPair, if_neg hc.1, if_neg hc.2]
    exact ih (fun x hx => hpre x (List.mem_cons_of_mem c hx))

lemma findPair_first (native target cname : String) (estDiv : Bool)
    (rest : List String)
    (hname : (cname = native ++ target ∧ estDiv = false) ∨
      (cname = target ++ native ∧ estDiv = true ∧ cname ≠ native ++ target)) :
    findPair native target (cname :: rest) = some (cname, estDiv) := by
  rcases hname with ⟨h1, h2⟩ | ⟨h1, h2, h3⟩
  · subst h2
    simp only [findPair, if_pos h1]
  · subst h2
    simp only [findPair, if_neg h3, if_pos h1]

lemma selectRows_names (f : DFrame) (p : DTime → Bool) :
    (selectRows f p).cols.map (fun q => q.1) = f.cols.map (fun q => q.1) := by
  simp only [selectRows, List.map_map]
  rfl

lemma forex_filtre_names (df df_forex : DFrame) :
    (forex_filtre df df_forex).cols.map (fun q => q.1) =
      df_forex.cols.map (fun q => q.1) := by
  unfold forex_filtre
  rw [selectRows_names]

lemma processCols_spec (fidx : List DTime)
    (fcols : List (String × List (Option ℚ))) (t : String) (idx : List DTime) :
    ∀ cols : List (String × List (Option ℚ)),
      (∀ sc ∈ cols, (lookupCurrency sc.1).isSome) →
      ∃ out ws, processCols fidx fcols t idx cols = Except.ok (out, ws) ∧
        out.map (fun q => q.1) = cols.map (fun q => q.1) ∧
        (∀ (k : ℕ) (sc : String × List (Option ℚ)) (cur : String),
          cols[k]? = some sc → lookupCurrency sc.1 = some cur →
          out[k]? = some (sc.1, (convCol1 fidx fcols t idx cur sc.2).1) ∧
          ∀ q ∈ (convCol1 fidx fcols t idx cur sc.2).2, q ∈ ws) := by
  intro cols
  induction cols with
  | nil =>
    intro _
    refine ⟨[], [], rfl, rfl, ?_⟩
    intro k sc cur h
    simp at h
  | cons sc0 rest ih =>
    intro hall
    obtain ⟨cur0, hcur0⟩ :=
      Option.isSome_iff_exists.mp (hall sc0 (List.mem_cons_self sc0 rest))
    obtain ⟨out, ws, heq, hnames, hk⟩ :=
      ih (fun x hx => hall x (List.mem_cons_of_mem sc0 hx))
    refine ⟨(sc0.1, (convCol1 fidx fcols t idx cur0 sc0.2).1) :: out,
      (convCol1 fidx fcols t idx cur0 sc0.2).2 ++ ws, ?_, ?_, ?_⟩
    · simp only [processCols]
      rw [hcur0, heq]
    · simp only [List.map_cons, hnames]
    · intro k sc cur hgk hcurk
      cases k with
      | zero =>
        simp only [List.getElem?_cons_zero, Option.some.injEq] at hgk
        subst hgk
        rw [hcur0] at hcurk
        injection hcurk with hc
        subst hc
        constructor
        · simp
        · intro q hq
          exact List.mem_append_left ws hq
      | succ m =>
        simp only [List.getElem?_cons_succ] at hgk
        obtain ⟨h1, h2⟩ := hk m sc cur hgk hcurk
        constructor
        · simpa using h1
        · intro q hq
          exact List.mem_append_right _ (h2 q hq)

lemma devisechange_spec (df df_forex : DFrame) (t : String)
    (hall : ∀ sc ∈ df.cols, (lookupCurrency sc.1).isSome) :
    ∃ outcols ws,
      (devisechange df df_forex t).2.2 =
        Except.ok ((⟨normIndex df.index, outcols⟩ : DFrame), ws) ∧
      outcols.map (fun q => q.1) = df.cols.map (fun q => q.1) ∧
      (∀ (k : ℕ) (sc : String × List (Option ℚ)) (cur : String),
        df.cols[k]? = some sc → lookupCurrency sc.1 = some cur →
        outcols[k]? = some (sc.1,
          (convCol1 (forex_filtre df df_forex).index
            (forex_filtre df df_forex).cols t (normIndex df.index) cur
            sc.2).1) ∧
        ∀ q ∈ (convCol1 (forex_filtre df df_forex).index
            (forex_filtre df df_forex).cols t (normIndex df.index) cur
            sc.2).2, q ∈ ws) := by
  obtain ⟨out, ws, heq, hnames, hk⟩ :=
    processCols_spec (forex_filtre df df_forex).index
      (forex_filtre df df_forex).cols t (normIndex df.index) df.cols hall
  refine ⟨out, ws, ?_, hnames, hk⟩
  show (devisechange df df_forex t).2.2 = _
  simp only [devisechange]
  rw [heq]

lemma zip_unzip_pairs {α β : Type} (l : List (α × β)) :
    (l.map (fun q => q.1)).zip (l.map (fun q => q.2)) = l := by
  induction l with
  | nil => rfl
  | cons a t ih => simp [ih]

lemma filter_filter_bool {α : Type} (l : List α) (p q : α → Bool) :
    (l.filter p).filter q = l.filter (fun a => p a && q a) := by
  induction l with
  | nil => rfl
  | cons a t ih =>
    cases hp : p a <;> cases hq : q a <;>
      simp [List.filter, hp, hq, ih]

lemma filterFrame_filterFrame (f : RFrame)
    (p q : DTime → List (Option ℚ) → Bool) :
    filterFrame (filterFrame f p) q =
      filterFrame f (fun d r => p d r && q d r) := by
  unfold filterFrame
  rw [zip_unzip_pairs, filter_filter_bool]

lemma cumprodAux_length (acc : ℚ) (l : List ℚ) :
    (cumprodAux acc l).length = l.length := by
  induction l generalizing acc with
  | nil => rfl
  | cons x xs ih => simp [cumprodAux, ih]

lemma cumprodAux_getElem? :
    ∀ (l : List ℚ) (acc : ℚ) (k : ℕ), k < l.length →
      (cumprodAux acc l)[k]? = some (acc * (l.take (k + 1)).prod) := by
  intro l
  induction l with
  | nil =>
    intro acc k h
    simp at h
  | cons x xs ih =>
    intro acc k h
    cases k with
    | zero => simp [cumprodAux]
    | succ m =>
      have hm : m < xs.length := by simpa using h
      simp only [cumprodAux, List.getElem?_cons_succ, List.take_succ_cons,
        List.prod_cons]
      rw [ih (acc * x) m hm]
      rw [mul_assoc]

lemma optimiser_max_eq (solver : Solver) (sqrtQ : ℚ → ℚ) (df : RetTable)
    (notes : Option (List (String × ℚ))) (cap : ℚ) :
    optimiser_portefeuille solver sqrtQ df "max_rendement" notes cap =
      Except.ok (solver
        (fun w => -(dot w (rendementsAnnualises df) -
          RISK_AVERSION * sqrtQ (quadForm (matriceCov df) w)))
        (poids_egaux df.cols.length) (bornes_de df.cols.length cap)
        [contrainte_somme]) := rfl

lemma optimiser_min_eq (solver : Solver) (sqrtQ : ℚ → ℚ) (df : RetTable)
    (notes : Option (List (String × ℚ))) (cap : ℚ) :
    optimiser_portefeuille solver sqrtQ df "min_volatilite" notes cap =
      Except.ok (solver
        (fun w => sqrtQ (quadForm (matriceCov df) w) -
          RETURN_TARGET_WEIGHT * dot w (rendementsAnnualises df))
        (poids_egaux df.cols.length) (bornes_de df.cols.length cap)
        [contrainte_somme]) := rfl

lemma optimiser_esg_eq (solver : Solver) (sqrtQ : ℚ → ℚ) (df : RetTable)
    (d : List (String × ℚ)) (cap : ℚ) (nv : Vec)
    (h : notes_vecteur d df.cols = Except.ok nv) :
    optimiser_portefeuille solver sqrtQ df "esg" (some d) cap =
      Except.ok (solver
        (fun w => -(ALPHA * dot w (rendementsAnnualises df) -
          RISK_AVERSION * sqrtQ (quadForm (matriceCov df) w) +
          GAMMA * dot w nv))
        (poids_egaux df.cols.length) (bornes_de df.cols.length cap)
        [contrainte_somme]) := by
  simp only [optimiser_portefeuille, Option.getD_some, h]
  rfl

/-! Claim theorems. -/

/-- C1: for every returns table and every solved mode (`max_rendement`,
`min_volatilite`, or `esg` with a complete score dict), provided the solver
returns a point satisfying the bound list and the equality constraint that the
optimizer passes to it, the returned weight vector sums to 1 within 1e-6 and
every component lies within `[0, max_poids_par_actif]`. -/
theorem C1_poids_admissibles (solver : Solver) (sqrtQ : ℚ → ℚ) (df : RetTable)
    (mode : String) (notes : Option (List (String × ℚ))) (cap : ℚ)
    (hmode : mode = "max_rendement" ∨ mode = "min_volatilite" ∨
      (mode = "esg" ∧ ∃ d, notes = some d ∧
        ∀ c ∈ df.cols, ((d.find? (fun p => decide (p.1 = c))).isSome)))
    (hsolver : ∀ obj : Vec → ℚ,
      dans_bornes
        (solver obj (poids_egaux df.cols.length) (bornes_de df.cols.length cap)
          [contrainte_somme])
        (bornes_de df.cols.length cap) ∧
      |contrainte_somme
        (solver obj (poids_egaux df.cols.length) (bornes_de df.cols.length cap)
          [contrainte_somme])| ≤ 1 / 1000000) :
    ∃ w, optimiser_portefeuille solver sqrtQ df mode notes cap = Except.ok w ∧
      |w.sum - 1| ≤ 1 / 1000000 ∧ ∀ x ∈ w, 0 ≤ x ∧ x ≤ cap := by
  rcases hmode with rfl | rfl | ⟨rfl, d, rfl, hcomp⟩
  · rw [optimiser_max_eq]
    obtain ⟨hb, hc⟩ := hsolver (fun w => -(dot w (rendementsAnnualises df) -
      RISK_AVERSION * sqrtQ (quadForm (matriceCov df) w)))
    refine ⟨_, rfl, by simpa [contrainte_somme] using hc, ?_⟩
    unfold dans_bornes bornes_de at hb
    intro x hx
    exact mem_of_forall₂_replicate hb x hx
  · rw [optimiser_min_eq]
    obtain ⟨hb, hc⟩ := hsolver (fun w => sqrtQ (quadForm (matriceCov df) w) -
      RETURN_TARGET_WEIGHT * dot w (rendementsAnnualises df))
    refine ⟨_, rfl, by simpa [contrainte_somme] using hc, ?_⟩
    unfold dans_bornes bornes_de at hb
    intro x hx
    exact mem_of_forall₂_replicate hb x hx
  · obtain ⟨nv, hnv⟩ := notes_vecteur_isOk d df.cols hcomp
    rw [optimiser_esg_eq solver sqrtQ df d cap nv hnv]
    obtain ⟨hb, hc⟩ := hsolver (fun w => -(ALPHA * dot w (rendementsAnnualises df) -
      RISK_AVERSION * sqrtQ (quadForm (matriceCov df) w) + GAMMA * dot w nv))
    refine ⟨_, rfl, by simpa [contrainte_somme] using hc, ?_⟩
    unfold dans_bornes bornes_de at hb
    intro x hx
    exact mem_of_forall₂_replicate hb x hx

/-- Witness for C1 at a concrete input: a feasible constant solver on the
two-asset table with cap 1/2. -/
theorem C1_poids_admissibles_temoin :
    ∃ w, optimiser_portefeuille solverDemi sqId tableDeux "max_rendement" none
        (1 / 2) = Except.ok w ∧
      |w.sum - 1| ≤ 1 / 1000000 ∧ ∀ x ∈ w, 0 ≤ x ∧ x ≤ 1 / 2 :=
  C1_poids_admissibles solverDemi sqId tableDeux "max_rendement" none (1 / 2)
    (Or.inl rfl)
    (by
      intro obj
      constructor
      · show dans_bornes [1 / 2, 1 / 2] (bornes_de 2 (1 / 2))
        unfold dans_bornes bornes_de
        norm_num [List.replicate, List.forall₂_cons]
      · show |contrainte_somme [1 / 2, 1 / 2]| ≤ 1 / 1000000
        norm_num [contrainte_somme])

/-- C2, counterexample: called without an explicit cap (the Python default),
the optimizer passes per-asset bounds capped at 1/4, not at 1.0; a solver that
echoes the upper bounds it receives distinguishes the two. -/
theorem C2_contre_exemple :
    optimiser_portefeuille solverEcho sqId tableDeux "max_rendement" none
        MAX_POIDS_PAR_ACTIF_DEFAUT = Except.ok [1 / 4, 1 / 4] ∧
    optimiser_portefeuille solverEcho sqId tableDeux "max_rendement" none 1 =
        Except.ok [1, 1] ∧
    (Except.ok [(1 : ℚ) / 4, 1 / 4] : Except PyError Vec) ≠
        Except.ok [1, 1] := by
  refine ⟨rfl, rfl, ?_⟩
  simp only [ne_eq, Except.ok.injEq, List.cons.injEq, and_true, not_and]
  intro h
  norm_num at h

/-- C2, amended: the `max_poids_par_actif` parameter defaults to 0.25, and none
of the four call sites passes an explicit cap, so every call site uses the
default cap 0.25. -/
theorem C2_defaut_un_quart (solver : Solver) (sqrtQ : ℚ → ℚ) (df : RetTable) :
    MAX_POIDS_PAR_ACTIF_DEFAUT = 1 / 4 ∧
    appel_max_rendement solver sqrtQ df =
      optimiser_portefeuille solver sqrtQ df "max_rendement" none (1 / 4) ∧
    appel_min_volatilite solver sqrtQ df =
      optimiser_portefeuille solver sqrtQ df "min_volatilite" none (1 / 4) ∧
    appel_esg solver sqrtQ df =
      optimiser_portefeuille solver sqrtQ df "esg" (some ESG_dict) (1 / 4) ∧
    appel_egale_pondere solver sqrtQ df =
      optimiser_portefeuille solver sqrtQ df "egale_pondere" none (1 / 4) :=
  ⟨rfl, rfl, rfl, rfl, rfl⟩

/-- C3, counterexample: with both pair columns present but the inverse column
`EURUSD` (rate 4) listed first, the USD price 10 is divided by 4 (giving 5/2)
instead of being multiplied by the direct rate 1/2 (which would give 5). -/
theorem C3_contre_exemple :
    (devisechange dfEQT dffPaires "EUR").2.2 =
      Except.ok ((⟨[⟨0, 0⟩], [("EQT", [some ((5 : ℚ) / 2)])]⟩ : DFrame), []) ∧
    (devisechange dfEQT dffPaires "EUR").2.2 ≠
      Except.ok ((⟨[⟨0, 0⟩], [("EQT", [some (5 : ℚ)])]⟩ : DFrame), []) := by
  have h : (devisechange dfEQT dffPaires "EUR").2.2 =
      Except.ok ((⟨[⟨0, 0⟩], [("EQT", [some ((5 : ℚ) / 2)])]⟩ : DFrame), []) := by
    simp [devisechange, normIndex, normDT, forex_filtre, selectRows, processCols,
      convCol1, findPair, lookupCurrency, currency_dict, convertCol, getAt,
      getCol, List.find?, dfEQT, dffPaires,
      show ("USD" ++ "EUR" : String) = "USDEUR" from rfl,
      show ("EUR" ++ "USD" : String) = "EURUSD" from rfl]
    norm_num
  refine ⟨h, ?_⟩
  rw [h]
  simp only [ne_eq, Except.ok.injEq, Prod.mk.injEq, DFrame.mk.injEq,
    List.cons.injEq, Prod.mk.injEq, Option.some.injEq, and_true, true_and]
  intro hcontra
  norm_num at hcontra

/-- C3, amended: for an asset whose native currency differs from the target,
the normalizer uses whichever pair column occurs first in the FX table column
order: a direct column first means multiplication, an inverse column first
means division. -/
theorem C3_premiere_paire_trouvee (df df_forex : DFrame) (target : String)
    (k : ℕ) (stock : String) (col : List (Option ℚ)) (cur cname : String)
    (estDiv : Bool) (pre post : List String)
    (hall : ∀ sc ∈ df.cols, (lookupCurrency sc.1).isSome)
    (hcol : df.cols[k]? = some (stock, col))
    (hcur : lookupCurrency stock = some cur)
    (hne : cur ≠ target)
    (hname : (cname = cur ++ target ∧ estDiv = false) ∨
      (cname = target ++ cur ∧ estDiv = true ∧ cname ≠ cur ++ target))
    (hsplit : df_forex.cols.map (fun q => q.1) = pre ++ cname :: post)
    (hpre : ∀ c ∈ pre, c ≠ cur ++ target ∧ c ≠ target ++ cur) :
    ∃ out ws, (devisechange df df_forex target).2.2 = Except.ok (out, ws) ∧
      out.cols[k]? = some (stock,
        convertCol (normIndex df.index) col (forex_filtre df df_forex).index
          (getCol (forex_filtre df df_forex).cols cname) estDiv) := by
  obtain ⟨outcols, ws, heq, hnames, hk⟩ :=
    devisechange_spec df df_forex target hall
  obtain ⟨h1, _⟩ := hk k (stock, col) cur hcol hcur
  have hfp : findPair cur target
      ((forex_filtre df df_forex).cols.map (fun q => q.1)) =
      some (cname, estDiv) := by
    rw [forex_filtre_names, hsplit,
      findPair_prefix_skip cur target pre (cname :: post) hpre]
    exact findPair_first cur target cname estDiv post hname
  have hcc : convCol1 (forex_filtre df df_forex).index
      (forex_filtre df df_forex).cols target (normIndex df.index) cur col =
      (convertCol (normIndex df.index) col (forex_filtre df df_forex).index
        (getCol (forex_filtre df df_forex).cols cname) estDiv, []) := by
    unfold convCol1
    rw [if_neg hne, hfp]
  rw [hcc] at h1
  exact ⟨⟨normIndex df.index, outcols⟩, ws, heq, h1⟩

/-- Witness for C3 amended: on the concrete tables of the counterexample, the
inverse column `EURUSD` occurs first and division is used. -/
theorem C3_premiere_paire_trouvee_temoin :
    ∃ out ws, (devisechange dfEQT dffPaires "EUR").2.2 = Except.ok (out, ws) ∧
      out.cols[0]? = some ("EQT",
        convertCol (normIndex dfEQT.index) [some 10]
          (forex_filtre dfEQT dffPaires).index
          (getCol (forex_filtre dfEQT dffPaires).cols "EURUSD") true) :=
  C3_premiere_paire_trouvee dfEQT dffPaires "EUR" 0 "EQT" [some 10] "USD"
    "EURUSD" true [] ["USDEUR"]
    (by decide) rfl rfl (by decide)
    (Or.inr ⟨rfl, rfl, by decide⟩) rfl
    (fun c hc => absurd hc (List.not_mem_nil c))

/-- C4, counterexample: in the converted price table `prixExemple` the third
day is a weekday and its return row still has a valid value for the first
asset, yet the builder drops it, because `dropna` with the default `how=any`
removes every row containing at least one missing value. -/
theorem C4_contre_exemple :
    dayofweek ⟨2, 0⟩ < 5 ∧
    (pctChange prixExemple.rows)[2]? = some [some 1, none] ∧
    (⟨2, 0⟩ : DTime) ∉ (returns_data prixExemple).index := by
  refine ⟨by decide, ?_, ?_⟩
  · simp [pctChange, pctRow, pctCell, prixExemple]
    norm_num
  · simp [returns_data, filterFrame, pctChange, pctRow, pctCell, dayofweek,
      prixExemple]

/-- C4, amended: after the percentage change, a row is kept exactly when its
date is a weekday and every asset cell of the row is present; equivalently a
row is dropped when it falls on a weekend or has at least one missing value
(the first row, all-missing, is always dropped). -/
theorem C4_lignes_gardees (prices : RFrame) :
    returns_data prices =
      filterFrame ⟨prices.index, pctChange prices.rows⟩
        (fun d row => decide (dayofweek d < 5) &&
          row.all (fun c => c.isSome)) := by
  unfold returns_data
  exact filterFrame_filterFrame _ _ _

/-- C5: in `egale_pondere` mode the optimizer returns the equal weight vector
`1/n` per asset, for every solver, square root, returns table, score dict and
cap: the data and the cap are ignored and the solver is never consulted. -/
theorem C5_egale_pondere (solver : Solver) (sqrtQ : ℚ → ℚ) (df : RetTable)
    (notes : Option (List (String × ℚ))) (cap : ℚ) :
    optimiser_portefeuille solver sqrtQ df "egale_pondere" notes cap =
      Except.ok (poids_egaux df.cols.length) ∧
    ∀ x ∈ poids_egaux df.cols.length, x = 1 / (df.cols.length : ℚ) := by
  constructor
  · rfl
  · intro x hx
    exact List.eq_of_mem_replicate hx

/-- C6: the analyzer computes the Sharpe ratio as
`(annual return - 0.04) / annual volatility` whenever the annualized
volatility is nonzero, and returns exactly 0 when the volatility is exactly 0;
the division never happens in the zero case. -/
theorem C6_sharpe_volatilite_nulle (sqrtQ : ℚ → ℚ) (rendements : RetTable)
    (poids : Vec) :
    (volatilite sqrtQ rendements poids = 0 →
      sharpe sqrtQ rendements poids = 0) ∧
    (volatilite sqrtQ rendements poids ≠ 0 →
      sharpe sqrtQ rendements poids =
        (rendement_annuel rendements poids - TAUX_SANS_RISQUE) /
          volatilite sqrtQ rendements poids) := by
  constructor
  · intro h
    simp [sharpe, h]
  · intro h
    simp [sharpe, h]

/-- Witness for C6: a single-asset portfolio with constant daily returns has
zero volatility and Sharpe ratio exactly 0. -/
theorem C6_sharpe_volatilite_nulle_temoin :
    volatilite sqId tableConstante [1] = 0 ∧
    sharpe sqId tableConstante [1] = 0 := by
  have hvol : volatilite sqId tableConstante [1] = 0 := by
    simp [volatilite, rendements_port, dot, meanQ, sqId, tableConstante]
    norm_num
  exact ⟨hvol, (C6_sharpe_volatilite_nulle sqId tableConstante [1]).1 hvol⟩

/-- C7: when neither the direct nor the inverse pair column exists for an
asset that needs conversion, the normalizer returns successfully (no abort),
leaves that column equal to the input, records the warning pair, and keeps
every other column in place. -/
theorem C7_taux_non_trouve (df df_forex : DFrame) (target : String) (k : ℕ)
    (stock : String) (col : List (Option ℚ)) (cur : String)
    (hall : ∀ sc ∈ df.cols, (lookupCurrency sc.1).isSome)
    (hcol : df.cols[k]? = some (stock, col))
    (hcur : lookupCurrency stock = some cur)
    (hne : cur ≠ target)
    (habsent : ∀ c ∈ df_forex.cols.map (fun q => q.1),
      c ≠ cur ++ target ∧ c ≠ target ++ cur) :
    ∃ out ws, (devisechange df df_forex target).2.2 = Except.ok (out, ws) ∧
      out.cols[k]? = some (stock, col) ∧
      (cur, target) ∈ ws ∧
      out.cols.map (fun q => q.1) = df.cols.map (fun q => q.1) := by
  obtain ⟨outcols, ws, heq, hnames, hk⟩ :=
    devisechange_spec df df_forex target hall
  obtain ⟨h1, h2⟩ := hk k (stock, col) cur hcol hcur
  have hfp : findPair cur target
      ((forex_filtre df df_forex).cols.map (fun q => q.1)) = none := by
    rw [forex_filtre_names]
    exact findPair_eq_none cur target _ habsent
  have hcc : convCol1 (forex_filtre df df_forex).index
      (forex_filtre df df_forex).cols target (normIndex df.index) cur col =
      (col, [(cur, target)]) := by
    unfold convCol1
    rw [if_neg hne, hfp]
  rw [hcc] at h1 h2
  refine ⟨⟨normIndex df.index, outcols⟩, ws, heq, h1, ?_, hnames⟩
  exact h2 (cur, target) (List.mem_singleton.mpr rfl)

/-- Witness for C7: the USD asset with an FX table holding only a GBP pair. -/
theorem C7_taux_non_trouve_temoin :
    ∃ out ws, (devisechange dfEQT dffSansPaire "EUR").2.2 =
        Except.ok (out, ws) ∧
      out.cols[0]? = some ("EQT", [some 10]) ∧
      ("USD", "EUR") ∈ ws ∧
      out.cols.map (fun q => q.1) = dfEQT.cols.map (fun q => q.1) :=
  C7_taux_non_trouve dfEQT dffSansPaire "EUR" 0 "EQT" [some 10] "USD"
    (by decide) rfl rfl (by decide) (by decide)

/-- C8: the performance projector outputs, date by date, the cumulative
product of one plus the portfolio daily return: the value at position `k` is
the basis 1 multiplied by the product of `(1 + r)` over the first `k + 1`
in-sample days, and the plotted series is indexed by the in-sample dates. -/
theorem C8_produit_cumule (rendements : RetTable) (poids : Vec)
    (titre : String)
    (hlen : rendements.index.length = rendements.rows.length) :
    (plot_perf rendements poids titre).map Prod.fst = rendements.index ∧
    ∀ k, k < rendements.rows.length →
      ((plot_perf rendements poids titre).map Prod.snd)[k]? =
        some (1 * ((rendements.rows.take (k + 1)).map
          (fun r => 1 + dot r poids)).prod) := by
  have hcl : (cumprod (rendements.rows.map (fun r => 1 + dot r poids))).length =
      rendements.rows.length := by
    unfold cumprod
    rw [cumprodAux_length, List.length_map]
  constructor
  · unfold plot_perf
    apply List.map_fst_zip
    rw [hcl]
    exact hlen.le
  · intro k hk
    unfold plot_perf
    rw [List.map_snd_zip]
    · unfold cumprod
      rw [cumprodAux_getElem?]
      · rw [List.map_take]
      · rw [List.length_map]
        exact hk
    · rw [hcl]
      exact hlen.ge

/-- Witness for C8 on a concrete two-day single-asset table. -/
theorem C8_produit_cumule_temoin :
    (plot_perf tablePerf [1] "Performance").map Prod.fst = tablePerf.index ∧
    ((plot_perf tablePerf [1] "Performance").map Prod.snd)[1]? =
      some (1 * ((tablePerf.rows.take 2).map (fun r => 1 + dot r [1])).prod) :=
  ⟨(C8_produit_cumule tablePerf [1] "Performance" rfl).1,
   (C8_produit_cumule tablePerf [1] "Performance" rfl).2 1 (by decide)⟩

/-- C9, counterexample: the normalizer reassigns the date index of its first
argument in place; on an input whose index carries a time-of-day component the
input object differs after the call, so the call is not mutation free. -/
theorem C9_contre_exemple :
    (devisechange dfHeure dffVide "EUR").1 ≠ dfHeure := by
  simp [devisechange, normIndex, normDT, dfHeure]

/-- C9, amended: the normalizer never changes the cell values of its inputs,
but it reassigns both input date indices in place to date-only values; inputs
whose indices are already date-only are left unchanged. -/
theorem C9_indices_normalises (df df_forex : DFrame) (t : String) :
    (devisechange df df_forex t).1.cols = df.cols ∧
    (devisechange df df_forex t).2.1.cols = df_forex.cols ∧
    ((∀ d ∈ df.index, d.time = 0) → (devisechange df df_forex t).1 = df) ∧
    ((∀ d ∈ df_forex.index, d.time = 0) →
      (devisechange df df_forex t).2.1 = df_forex) := by
  refine ⟨rfl, rfl, ?_, ?_⟩
  · intro h
    show (⟨normIndex df.index, df.cols⟩ : DFrame) = df
    rw [normIndex_id df.index h]
  · intro h
    show (⟨normIndex df_forex.index, df_forex.cols⟩ : DFrame) = df_forex
    rw [normIndex_id df_forex.index h]

/-- Witness for C9 amended: on date-only indices the input states are
preserved. -/
theorem C9_indices_normalises_temoin :
    (devisechange dfEQT dffPaires "EUR").1 = dfEQT ∧
    (devisechange dfEQT dffPaires "EUR").2.1 = dffPaires :=
  ⟨(C9_indices_normalises dfEQT dffPaires "EUR").2.2.1 (by simp [dfEQT]),
   (C9_indices_normalises dfEQT dffPaires "EUR").2.2.2 (by simp [dffPaires])⟩

/-- C10: a mode string other than the four recognized ones, or mode `esg`
with no score dict, leaves the local `objectif` undefined, so the call raises
instead of returning a weight vector. -/
theorem C10_objectif_non_defini (solver : Solver) (sqrtQ : ℚ → ℚ)
    (df : RetTable) (mode : String) (notes : Option (List (String × ℚ)))
    (cap : ℚ)
    (h : (mode ≠ "max_rendement" ∧ mode ≠ "min_volatilite" ∧ mode ≠ "esg" ∧
        mode ≠ "egale_pondere") ∨ (mode = "esg" ∧ notes = none)) :
    optimiser_portefeuille solver sqrtQ df mode notes cap =
      Except.error PyError.nameErrorObjectif := by
  rcases h with ⟨h1, h2, h3, h4⟩ | ⟨rfl, rfl⟩
  · simp only [optimiser_portefeuille]
    rw [if_neg h1, if_neg h2, if_neg (fun hc => h3 hc.1), if_neg h4]
  · simp only [optimiser_portefeuille]
    rw [if_neg (by decide), if_neg (by decide), if_neg (by simp),
      if_neg (by decide)]

/-- Witness for C10 at the unrecognized mode string `autre`. -/
theorem C10_objectif_non_defini_temoin :
    optimiser_portefeuille solverEcho sqId tableDeux "autre" none 1 =
      Except.error PyError.nameErrorObjectif :=
  C10_objectif_non_defini solverEcho sqId tableDeux "autre" none 1
    (Or.inl ⟨by decide, by decide, by decide, by decide⟩)
